import Mathlib

/-!
# Verification of the `fix_checksum` crate (src/src/lib.rs)

Shallow embedding of the crate's two public operations, `validate` and
`generate`, and the private helper `checksum`, over messages modelled as
lists of byte values (`List Nat`).  Rust `&str` values are byte sequences;
all inputs of interest here are ASCII, so a string is modelled by the list
of its character codes.  The `u32` accumulator of `checksum` wraps, which is
modelled by reducing modulo `2 ^ 32` at each addition.  Rust's panics
(out-of-bounds slicing in `validate`) are modelled by a dedicated
`ValidateOutcome.panicked` outcome, distinct from the `Result` values the
function returns.
-/

namespace FixChecksum

/-- Byte values of an ASCII string literal (each `Char` code point is one
byte for the ASCII strings used throughout). -/
def strBytes (s : String) : List Nat :=
  s.toList.map Char.toNat

/-- `const FIX_MESSAGE_DELIMITER: char = '\x01';` -/
def FIX_MESSAGE_DELIMITER : Nat := 0x01

/-- `const FIX_CHECKSUM_FIELD: &'static str = "\x31\x30\x3D";` (the bytes of
`"10="`). -/
def FIX_CHECKSUM_FIELD : List Nat := [0x31, 0x30, 0x3D]

/-- The search pattern `FIX_MESSAGE_DELIMITER.to_string() + FIX_CHECKSUM_FIELD`
built at the start of `validate` (line 129 of lib.rs). -/
def tail_pattern : List Nat := FIX_MESSAGE_DELIMITER :: FIX_CHECKSUM_FIELD

/-- `fn checksum(message: &str) -> u32` (lib.rs lines 37-44): sum the bytes
into a `u32` accumulator (wrapping, hence the `% 2 ^ 32`), then `cs %= 256`. -/
def checksum (message : List Nat) : Nat :=
  (message.foldl (fun cs b => (cs + b) % 2 ^ 32) 0) % 256

/-- `pub enum FIXChecksumValidatorError` (lib.rs lines 46-51). -/
inductive FIXChecksumValidatorError
| invalidEmptyMessage
| checksumFieldNotFound
| checksumFieldInvalidFormat
deriving DecidableEq

/-- Outcome of running `validate`: its `Result<bool, _>` value, or a panic
(Rust's byte-slice indexing `&s[a..b]` panics when `b` exceeds the length). -/
inductive ValidateOutcome
| panicked
| error (e : FIXChecksumValidatorError)
| ok (b : Bool)
deriving DecidableEq

/-- ASCII decimal digit test, as used by Rust's `u32` parser. -/
def isDigitByte (b : Nat) : Bool := decide (0x30 ≤ b ∧ b ≤ 0x39)

/-- Value of a list of ASCII digit bytes read as a decimal numeral
(the accumulation loop of Rust's integer parsing). -/
def digitsToNat (ds : List Nat) : Nat :=
  ds.foldl (fun acc d => acc * 10 + (d - 0x30)) 0

/-- `str::parse::<u32>` on a byte sequence: an optional leading `'+'`
(accepted by Rust's unsigned parser), then one or more decimal digits whose
value fits in `u32`; everything else is a parse error (`none`).  A leading
`'-'` or any non-digit makes the digit test fail, as in Rust where unsigned
parsing errors on those inputs. -/
def parseU32 (s : List Nat) : Option Nat :=
  let ds := match s with
    | b :: rest => if b = 0x2B then rest else s
    | [] => s
  if ds = [] then none
  else if ds.all isDigitByte then
    if digitsToNat ds < 2 ^ 32 then some (digitsToNat ds) else none
  else none

/-- Scanning loop of `str::find(&pattern)`: try each start position from the
left, return the first index where the pattern is a prefix of the rest. -/
def findSubAux (pat : List Nat) : List Nat → Nat → Option Nat
| [], i => if pat.isPrefixOf ([] : List Nat) then some i else none
| b :: rest, i =>
  if pat.isPrefixOf (b :: rest) then some i else findSubAux pat rest (i + 1)

/-- `haystack.find(pattern)`: byte index of the first occurrence. -/
def findSub (haystack pat : List Nat) : Option Nat :=
  findSubAux pat haystack 0

/-- Decimal digit emission loop of `u32::to_string()`, with explicit fuel
(the value itself suffices, as each step divides by ten). -/
def natToDecAux : Nat → Nat → List Nat → List Nat
| 0, _, acc => acc
| fuel + 1, n, acc =>
  if n = 0 then acc else natToDecAux fuel (n / 10) ((0x30 + n % 10) :: acc)

/-- `u32::to_string()` as ASCII bytes: bare decimal, no padding; `0` prints
as `"0"`. -/
def natToDec (n : Nat) : List Nat :=
  if n = 0 then [0x30] else natToDecAux n n []

/-- `pub fn generate(outbound_message: &str) -> String` (lib.rs lines
156-158): `checksum(outbound_message).to_string()`. -/
def generate (outbound_message : List Nat) : List Nat :=
  natToDec (checksum outbound_message)

/-- `pub fn validate(inbound_message: &str) -> Result<bool, FIXChecksumValidatorError>`
(lib.rs lines 126-142).  The slice `inbound_message[checksum_index_start..checksum_index_end]`
is taken without a bounds check in the source, so the embedding returns
`panicked` when `checksum_index_end` exceeds the message length. -/
def validate (inbound_message : List Nat) : ValidateOutcome :=
  if inbound_message = [] then .error .invalidEmptyMessage
  else
    match findSub inbound_message tail_pattern with
    | none => .error .checksumFieldNotFound
    | some tail_start =>
      let split_index := tail_start + 1
      let checksum_index_start := split_index + 3
      let checksum_index_end := split_index + 6
      let checksum_to_be := checksum (inbound_message.take split_index)
      if checksum_index_end ≤ inbound_message.length then
        match parseU32 ((inbound_message.drop checksum_index_start).take 3) with
        | none => .error .checksumFieldInvalidFormat
        | some checksum_as_is => .ok (checksum_as_is == checksum_to_be)
      else .panicked

/-! ## Basic facts about `checksum` -/

lemma foldl_add_mod (l : List Nat) : ∀ a : Nat,
    l.foldl (fun cs b => (cs + b) % 2 ^ 32) (a % 2 ^ 32) = (a + l.sum) % 2 ^ 32 := by
  induction l with
  | nil => intro a; simp
  | cons x xs ih =>
    intro a
    simp only [List.foldl_cons, List.sum_cons]
    rw [Nat.mod_add_mod, ih (a + x), Nat.add_assoc]

/-- The wrapping `u32` accumulation followed by `% 256` computes the plain
byte sum modulo 256 (since `256 ∣ 2 ^ 32`). -/
lemma checksum_eq_sum (m : List Nat) : checksum m = m.sum % 256 := by
  have h0 : (0 : Nat) = 0 % 2 ^ 32 := rfl
  rw [checksum, h0, foldl_add_mod, Nat.zero_add,
    Nat.mod_mod_of_dvd _ (by norm_num : (256 : Nat) ∣ 2 ^ 32)]

lemma checksum_lt (m : List Nat) : checksum m < 256 := by
  rw [checksum_eq_sum]; exact Nat.mod_lt _ (by norm_num)

set_option maxRecDepth 4096 in
/-- Evaluated properties of the decimal rendering for every possible
checksum value: digits only, one to three of them, the round-trip through
`digitsToNat`, and exactly three digits from 100 up. -/
lemma natToDec_props : ∀ n, n < 256 →
    ((natToDec n).all isDigitByte = true ∧ 1 ≤ (natToDec n).length ∧
      (natToDec n).length ≤ 3 ∧ digitsToNat (natToDec n) = n ∧
      (100 ≤ n → (natToDec n).length = 3)) := by decide

/-! ## Correctness of the substring search -/

lemma prefix_drop_isInfix {pat m : List Nat} {j : Nat}
    (h : pat <+: m.drop j) : pat <:+: m :=
  h.isInfix.trans (List.drop_suffix j m).isInfix

lemma findSubAux_eq_some (pat : List Nat) : ∀ (m : List Nat) (k i : Nat),
    pat <+: m.drop i → (∀ j, j < i → ¬ pat <+: m.drop j) →
    findSubAux pat m k = some (k + i) := by
  intro m
  induction m with
  | nil =>
    intro k i h hmin
    rw [List.drop_nil, List.prefix_nil] at h
    rcases Nat.eq_zero_or_pos i with hi | hi
    · subst hi; subst h; simp [findSubAux]
    · exact absurd (by rw [List.drop_nil, h]) (hmin 0 hi)
  | cons b rest ih =>
    intro k i h hmin
    by_cases hp : pat <+: (b :: rest)
    · rcases Nat.eq_zero_or_pos i with hi | hi
      · subst hi
        simp only [findSubAux, if_pos (List.isPrefixOf_iff_prefix.mpr hp)]
        simp
      · exact absurd (by rw [List.drop_zero]; exact hp) (hmin 0 hi)
    · rcases Nat.eq_zero_or_pos i with hi | hi
      · subst hi; rw [List.drop_zero] at h; exact absurd h hp
      · obtain ⟨i', rfl⟩ : ∃ i', i = i' + 1 := ⟨i - 1, by omega⟩
        simp only [findSubAux,
          if_neg (fun hc => hp (List.isPrefixOf_iff_prefix.mp hc))]
        have h' : pat <+: rest.drop i' := by rwa [List.drop_succ_cons] at h
        have hmin' : ∀ j, j < i' → ¬ pat <+: rest.drop j := by
          intro j hj
          have hh := hmin (j + 1) (by omega)
          rwa [List.drop_succ_cons] at hh
        rw [ih (k + 1) i' h' hmin']
        congr 1
        omega

lemma findSub_eq_some {pat m : List Nat} {i : Nat}
    (h : pat <+: m.drop i) (hmin : ∀ j, j < i → ¬ pat <+: m.drop j) :
    findSub m pat = some i := by
  have hh := findSubAux_eq_some pat m 0 i h hmin
  rwa [Nat.zero_add] at hh

lemma findSubAux_eq_none (pat : List Nat) : ∀ (m : List Nat) (k : Nat),
    (∀ j, ¬ pat <+: m.drop j) → findSubAux pat m k = none := by
  intro m
  induction m with
  | nil =>
    intro k hno
    have h0 := hno 0
    rw [List.drop_zero] at h0
    simp only [findSubAux,
      if_neg (fun hc => h0 (List.isPrefixOf_iff_prefix.mp hc))]
  | cons b rest ih =>
    intro k hno
    have h0 := hno 0
    rw [List.drop_zero] at h0
    simp only [findSubAux,
      if_neg (fun hc => h0 (List.isPrefixOf_iff_prefix.mp hc))]
    exact ih (k + 1) fun j => by
      have hh := hno (j + 1)
      rwa [List.drop_succ_cons] at hh

lemma findSub_eq_none {pat m : List Nat} (h : ¬ pat <:+: m) :
    findSub m pat = none :=
  findSubAux_eq_none pat m 0 fun _ hp => h (prefix_drop_isInfix hp)

/-- Unfolding of `validate` once the search has succeeded at index `i`. -/
lemma validate_found {m : List Nat} (hm : m ≠ []) {i : Nat}
    (hf : findSub m tail_pattern = some i) :
    validate m =
      (if i + 1 + 6 ≤ m.length then
        match parseU32 ((m.drop (i + 1 + 3)).take 3) with
        | none => ValidateOutcome.error .checksumFieldInvalidFormat
        | some v => .ok (v == checksum (m.take (i + 1)))
      else .panicked) := by
  rw [validate, if_neg hm, hf]

/-! ## The appended-checksum message shape -/

/-- When a body ending in the delimiter contains no anchored pattern, the
search over `body ++ "10=" ++ rest` hits exactly the boundary: the first
occurrence starts at the body's final delimiter. -/
lemma findSub_boundary (b' rest : List Nat)
    (hni : ¬ tail_pattern <:+: (b' ++ [FIX_MESSAGE_DELIMITER])) :
    findSub ((b' ++ [FIX_MESSAGE_DELIMITER]) ++ (0x31 :: 0x30 :: 0x3D :: rest))
      tail_pattern = some b'.length := by
  have hsplit : (b' ++ [FIX_MESSAGE_DELIMITER]) ++ (0x31 :: 0x30 :: 0x3D :: rest)
      = b' ++ (tail_pattern ++ rest) := by
    simp [tail_pattern, FIX_MESSAGE_DELIMITER, FIX_CHECKSUM_FIELD]
  apply findSub_eq_some
  · rw [hsplit, List.drop_left]
    exact ⟨rest, rfl⟩
  · intro j hj hpre
    have hblen : (b' ++ [FIX_MESSAGE_DELIMITER]).length = b'.length + 1 := by
      simp
    by_cases hc : j + 4 ≤ b'.length + 1
    · -- the four pattern bytes would lie wholly inside the body
      have hdrop : ((b' ++ [FIX_MESSAGE_DELIMITER]) ++
            (0x31 :: 0x30 :: 0x3D :: rest)).drop j
          = (b' ++ [FIX_MESSAGE_DELIMITER]).drop j ++
            (0x31 :: 0x30 :: 0x3D :: rest) := by
        rw [List.drop_append_eq_append_drop,
          Nat.sub_eq_zero_of_le (by omega), List.drop_zero]
      rw [hdrop] at hpre
      have hlendrop : 4 ≤ ((b' ++ [FIX_MESSAGE_DELIMITER]).drop j).length := by
        rw [List.length_drop, hblen]; omega
      have htake : tail_pattern =
          ((b' ++ [FIX_MESSAGE_DELIMITER]).drop j).take 4 := by
        have heq := List.prefix_iff_eq_take.mp hpre
        rwa [show tail_pattern.length = 4 from rfl,
          List.take_append_eq_append_take,
          Nat.sub_eq_zero_of_le hlendrop, List.take_zero,
          List.append_nil] at heq
      exact hni (prefix_drop_isInfix
        (htake ▸ List.take_prefix 4 ((b' ++ [FIX_MESSAGE_DELIMITER]).drop j)))
    · -- the occurrence would straddle the final delimiter
      obtain ⟨t, ht⟩ := hpre
      have hB : ((b' ++ [FIX_MESSAGE_DELIMITER]) ++
            (0x31 :: 0x30 :: 0x3D :: rest)).drop b'.length
          = FIX_MESSAGE_DELIMITER :: 0x31 :: 0x30 :: 0x3D :: rest := by
        have hgrp : (b' ++ [FIX_MESSAGE_DELIMITER]) ++
              (0x31 :: 0x30 :: 0x3D :: rest)
            = b' ++ (FIX_MESSAGE_DELIMITER :: 0x31 :: 0x30 :: 0x3D :: rest) := by
          simp
        rw [hgrp, List.drop_left]
      rcases (by omega : j + 1 = b'.length ∨ j + 2 = b'.length) with hcase | hcase
      · have h1 : ((b' ++ [FIX_MESSAGE_DELIMITER]) ++
              (0x31 :: 0x30 :: 0x3D :: rest)).drop (j + 1)
            = 0x31 :: 0x30 :: 0x3D :: t := by
          rw [show j + 1 = j + 1 from rfl, ← List.drop_drop, ← ht]
          rfl
        rw [hcase, hB] at h1
        exact absurd h1 (by simp [FIX_MESSAGE_DELIMITER])
      · have h2 : ((b' ++ [FIX_MESSAGE_DELIMITER]) ++
              (0x31 :: 0x30 :: 0x3D :: rest)).drop (j + 2)
            = 0x30 :: 0x3D :: t := by
          rw [← List.drop_drop, ← ht]
          rfl
        rw [hcase, hB] at h2
        exact absurd h2 (by simp [FIX_MESSAGE_DELIMITER])

/-- A three-digit window always parses, to its decimal value. -/
lemma parseU32_three (a b c : Nat) (h : [a, b, c].all isDigitByte = true) :
    parseU32 [a, b, c] = some (digitsToNat [a, b, c]) := by
  have hdig : (0x30 ≤ a ∧ a ≤ 0x39) ∧ (0x30 ≤ b ∧ b ≤ 0x39) ∧
      (0x30 ≤ c ∧ c ≤ 0x39) := by
    simpa [isDigitByte] using h
  have hne : a ≠ 0x2B := by omega
  have hval : digitsToNat [a, b, c] < 2 ^ 32 := by
    simp only [digitsToNat, List.foldl]
    omega
  rw [parseU32]
  simp only [if_neg hne]
  rw [if_neg (by simp), if_pos h, if_pos hval]

/-- `validate` on `body ++ "10=" ++ v ++ delimiter` for a body ending in the
delimiter with no anchored pattern of its own and a three-digit value `v`:
the outcome is the boolean comparison of `v`'s value with the body's
checksum. -/
lemma validate_append (b' v : List Nat)
    (hni : ¬ tail_pattern <:+: (b' ++ [FIX_MESSAGE_DELIMITER]))
    (hv : v.length = 3) (hd : v.all isDigitByte = true) :
    validate ((b' ++ [FIX_MESSAGE_DELIMITER]) ++ strBytes "10=" ++ v ++
        [FIX_MESSAGE_DELIMITER]) =
      .ok (digitsToNat v == checksum (b' ++ [FIX_MESSAGE_DELIMITER])) := by
  obtain ⟨a, b, c, rfl⟩ := List.length_eq_three.mp hv
  have hmsg : (b' ++ [FIX_MESSAGE_DELIMITER]) ++ strBytes "10=" ++ [a, b, c] ++
        [FIX_MESSAGE_DELIMITER]
      = (b' ++ [FIX_MESSAGE_DELIMITER]) ++
        (0x31 :: 0x30 :: 0x3D :: ([a, b, c] ++ [FIX_MESSAGE_DELIMITER])) := by
    simp [strBytes]
  rw [hmsg]
  have hm : (b' ++ [FIX_MESSAGE_DELIMITER]) ++
      (0x31 :: 0x30 :: 0x3D :: ([a, b, c] ++ [FIX_MESSAGE_DELIMITER])) ≠ [] := by
    simp
  rw [validate_found hm (findSub_boundary b' _ hni)]
  have hlen : ((b' ++ [FIX_MESSAGE_DELIMITER]) ++
      (0x31 :: 0x30 :: 0x3D :: ([a, b, c] ++ [FIX_MESSAGE_DELIMITER]))).length
      = b'.length + 8 := by
    simp
  rw [if_pos (by rw [hlen]; omega)]
  have htake : ((b' ++ [FIX_MESSAGE_DELIMITER]) ++
      (0x31 :: 0x30 :: 0x3D :: ([a, b, c] ++ [FIX_MESSAGE_DELIMITER]))).take
        (b'.length + 1)
      = b' ++ [FIX_MESSAGE_DELIMITER] := List.take_left' (by simp)
  have hdrop : ((b' ++ [FIX_MESSAGE_DELIMITER]) ++
      (0x31 :: 0x30 :: 0x3D :: ([a, b, c] ++ [FIX_MESSAGE_DELIMITER]))).drop
        (b'.length + 1 + 3)
      = [a, b, c] ++ [FIX_MESSAGE_DELIMITER] := by
    have hgrp : (b' ++ [FIX_MESSAGE_DELIMITER]) ++
          (0x31 :: 0x30 :: 0x3D :: ([a, b, c] ++ [FIX_MESSAGE_DELIMITER]))
        = ((b' ++ [FIX_MESSAGE_DELIMITER]) ++ [0x31, 0x30, 0x3D]) ++
          ([a, b, c] ++ [FIX_MESSAGE_DELIMITER]) := by
      simp
    rw [hgrp]
    exact List.drop_left' (by simp)
  rw [htake, hdrop]
  have hwin : ([a, b, c] ++ [FIX_MESSAGE_DELIMITER]).take 3 = [a, b, c] :=
    List.take_left' rfl
  rw [hwin, parseU32_three a b c hd]

/-! ## Claim theorems: checksum algebra -/

/-- C4: for every finite byte sequence `m`, `checksum m` equals the sum of
all byte values of `m` reduced modulo 256, and lies in `[0, 255]`; being a
Lean function it is deterministic and total. -/
theorem checksum_sum_mod_256 : ∀ m : List Nat,
    checksum m = m.sum % 256 ∧ checksum m < 256 :=
  fun m => ⟨checksum_eq_sum m, checksum_lt m⟩

/-- C5: additive homomorphism — for all byte sequences `a` and `b`,
`checksum (a ++ b) = (checksum a + checksum b) % 256`. -/
theorem checksum_append_hom : ∀ a b : List Nat,
    checksum (a ++ b) = (checksum a + checksum b) % 256 := by
  intro a b
  rw [checksum_eq_sum, checksum_eq_sum, checksum_eq_sum, List.sum_append,
    Nat.add_mod]

/-! ## Claim theorems: validator behaviour -/

/-- C9: `validate` on the empty message returns
`Err(InvalidEmptyMessage)` (the source's name for the spec's
`EmptyMessage`), and that outcome arises exactly when the input has zero
length. -/
theorem validate_empty_iff :
    validate ([] : List Nat) = .error .invalidEmptyMessage ∧
    ∀ m : List Nat,
      (validate m = .error .invalidEmptyMessage ↔ m = []) := by
  refine ⟨rfl, fun m => ⟨fun h => ?_, fun hm => by subst hm; rfl⟩⟩
  by_contra hm
  rw [validate, if_neg hm] at h
  split at h
  · exact absurd h (by decide)
  · dsimp only at h
    split at h
    · split at h
      · exact absurd h (by decide)
      · exact ValidateOutcome.noConfusion h
    · exact ValidateOutcome.noConfusion h

/-- C8: every non-empty message with no occurrence of the anchored pattern
`0x01 ++ "10="` yields `Err(ChecksumFieldNotFound)`; embedded digits such
as `"210=5\x01"` never produce a false match because the search pattern
itself carries the delimiter. -/
theorem validate_no_tag_not_found : ∀ m : List Nat, m ≠ [] →
    ¬ tail_pattern <:+: m →
    validate m = .error .checksumFieldNotFound := by
  intro m hm hni
  rw [validate, if_neg hm, findSub_eq_none hni]

/-- Witness for C8 at the message `"8=X\x01210=5\x01"`, which contains
`"210=5\x01"` but no delimiter-anchored `"10="`. -/
theorem validate_no_tag_not_found_witness :
    validate (strBytes "8=X\x01210=5\x01") =
      .error .checksumFieldNotFound :=
  validate_no_tag_not_found (strBytes "8=X\x01210=5\x01")
    (by decide) (by decide)

/-- C6: when the anchored pattern occurs first at index `i` (it occurs there
and nowhere earlier), `validate` uses that occurrence: the checksum-covered
span is `m.take (i + 1)` — everything from the start of the message up to
and including that occurrence's delimiter — and the claimed value is read
from the three bytes after the `"10="` at that occurrence. -/
theorem validate_first_match : ∀ (m : List Nat) (i : Nat),
    tail_pattern <+: m.drop i →
    (∀ j, j < i → ¬ tail_pattern <+: m.drop j) →
    validate m =
      (if i + 1 + 6 ≤ m.length then
        match parseU32 ((m.drop (i + 1 + 3)).take 3) with
        | none => ValidateOutcome.error .checksumFieldInvalidFormat
        | some v => .ok (v == checksum (m.take (i + 1)))
      else .panicked) := by
  intro m i h hmin
  have hm : m ≠ [] := by
    intro he
    subst he
    rw [List.drop_nil, List.prefix_nil] at h
    exact absurd h (by decide)
  exact validate_found hm (findSub_eq_some h hmin)

/-- Witness for C6 at `"A\x0110=066\x01"`, whose first (and only) anchored
match is at index 1. -/
theorem validate_first_match_witness :
    validate (strBytes "A\x0110=066\x01") =
      (if 1 + 1 + 6 ≤ (strBytes "A\x0110=066\x01").length then
        match parseU32 (((strBytes "A\x0110=066\x01").drop (1 + 1 + 3)).take 3) with
        | none => ValidateOutcome.error .checksumFieldInvalidFormat
        | some v =>
          .ok (v == checksum ((strBytes "A\x0110=066\x01").take (1 + 1)))
      else .panicked) :=
  validate_first_match (strBytes "A\x0110=066\x01") 1 (by decide) (by decide)

/-! ## Claim theorems: concrete evaluations -/

/-- C2 counterexample: `generate ""` is the unpadded `"0"`, not the
zero-padded `"000"` the claim states. -/
theorem generate_empty_is_unpadded :
    generate ([] : List Nat) = strBytes "0" ∧
      generate ([] : List Nat) ≠ strBytes "000" := by decide

/-- C3: on the message `"\x0110=12"` the checksum tag is found but only two
bytes follow `"10="`; the source slices
`inbound_message[split_index + 3..split_index + 6]` without any bounds
check, so the call panics instead of returning
`Err(ChecksumFieldInvalidFormat)`. -/
theorem validate_short_window_panics :
    validate (strBytes "\x0110=12") = .panicked ∧
      ValidateOutcome.panicked ≠
        .error .checksumFieldInvalidFormat := by decide

/-- C10: the three-byte window `"+66"` after `"10="` is not made of three
decimal digits, yet Rust's unsigned parser accepts the leading `'+'`, so
`validate` returns `Ok` (here `Ok(true)`, the covered span `"A\x01"` summing
to 66) rather than `Err(ChecksumFieldInvalidFormat)`. -/
theorem validate_plus_window_ok :
    validate (strBytes "A\x0110=+66") = .ok true ∧
      (strBytes "+66").all isDigitByte = false ∧
      parseU32 (strBytes "+66") = some 66 := by decide

/-- C1 counterexample: for the well-formed body `"8=FIX.4.2\x01"` (one
tag=value pair ending in the delimiter) the checksum is 31, `generate`
renders it as the two-byte `"31"`, and the round-trip message fails with
`Err(ChecksumFieldInvalidFormat)` instead of `Ok(true)`: the unpadded value
makes the three-byte window `"31\x01"` unparseable. -/
theorem roundtrip_fails_short_checksum :
    validate (strBytes "8=FIX.4.2\x01" ++ strBytes "10=" ++
        generate (strBytes "8=FIX.4.2\x01") ++ [FIX_MESSAGE_DELIMITER]) =
      .error .checksumFieldInvalidFormat ∧
      ValidateOutcome.error .checksumFieldInvalidFormat ≠ .ok true := by decide

/-- C7 counterexample: the body `"A\x01"` ends in the delimiter and has
checksum 66, so `generate` returns `"66"`; the three-digit value `"066"`
differs from `generate` as a string, yet it parses to the same number 66 and
`validate` answers `Ok(true)`, not `Ok(false)`. -/
theorem mismatched_string_same_value :
    strBytes "066" ≠ generate (strBytes "A\x01") ∧
      (strBytes "066").all isDigitByte = true ∧
      (strBytes "066").length = 3 ∧
      validate (strBytes "A\x01" ++ strBytes "10=" ++ strBytes "066" ++
        [FIX_MESSAGE_DELIMITER]) = .ok true := by decide

/-! ## Claim theorems: amended round trips and generator shape -/

/-- C2 (amended): `generate` always returns the checksum's bare decimal
rendering — one to three ASCII digits whose value is the checksum, with no
zero padding (so `generate ""` is `"0"`, not `"000"`) — and, as a total Lean
function, it never fails. -/
theorem generate_bare_decimal : ∀ msg : List Nat,
    (generate msg).all isDigitByte = true ∧
      1 ≤ (generate msg).length ∧ (generate msg).length ≤ 3 ∧
      digitsToNat (generate msg) = checksum msg := by
  intro msg
  have h := natToDec_props (checksum msg) (checksum_lt msg)
  exact ⟨h.1, h.2.1, h.2.2.1, h.2.2.2.1⟩

/-- C1 (amended): for a body `b` that ends in the delimiter, contains no
anchored pattern `0x01 ++ "10="` of its own, and whose checksum is at least
100 (so that the unpadded `generate b` is exactly three digits),
`validate (b ++ "10=" ++ generate b ++ delimiter) = Ok(true)`. -/
theorem roundtrip_padded : ∀ b : List Nat,
    b.getLast? = some FIX_MESSAGE_DELIMITER →
    ¬ tail_pattern <:+: b →
    100 ≤ checksum b →
    validate (b ++ strBytes "10=" ++ generate b ++ [FIX_MESSAGE_DELIMITER]) =
      .ok true := by
  intro b hlast hni hcs
  have hb : b.dropLast ++ [FIX_MESSAGE_DELIMITER] = b :=
    List.dropLast_append_getLast? _ (Option.mem_def.mpr hlast)
  rw [← hb] at hni hcs ⊢
  have hprops := natToDec_props (checksum (b.dropLast ++ [FIX_MESSAGE_DELIMITER]))
    (checksum_lt _)
  rw [validate_append b.dropLast _ hni
    (by rw [generate]; exact hprops.2.2.2.2 hcs)
    (by rw [generate]; exact hprops.1)]
  rw [generate, hprops.2.2.2.1, beq_self_eq_true]

set_option maxRecDepth 16384 in
/-- Witness for C1 (amended) at the crate's own eight-field example body,
whose checksum is 236. -/
theorem roundtrip_padded_witness :
    validate (strBytes "8=FIX.4.2\x019=73\x0135=0\x0149=BRKR\x0156=INVMGR\x0134=235\x0152=19980604-07:58:28\x01112=19980604-07:58:28\x01" ++
        strBytes "10=" ++
        generate (strBytes "8=FIX.4.2\x019=73\x0135=0\x0149=BRKR\x0156=INVMGR\x0134=235\x0152=19980604-07:58:28\x01112=19980604-07:58:28\x01") ++
        [FIX_MESSAGE_DELIMITER]) = .ok true :=
  roundtrip_padded
    (strBytes "8=FIX.4.2\x019=73\x0135=0\x0149=BRKR\x0156=INVMGR\x0134=235\x0152=19980604-07:58:28\x01112=19980604-07:58:28\x01")
    (by decide) (by decide) (by decide)

/-- C7 (amended): for a body ending in the delimiter with no anchored
pattern of its own and a three-decimal-digit value `v` whose numeric value
differs from the body's checksum,
`validate (body ++ "10=" ++ v ++ delimiter) = Ok(false)` — a mismatch is a
boolean outcome, never an error. -/
theorem mismatch_ok_false : ∀ (bodyInit v : List Nat),
    ¬ tail_pattern <:+: (bodyInit ++ [FIX_MESSAGE_DELIMITER]) →
    v.length = 3 → v.all isDigitByte = true →
    digitsToNat v ≠ checksum (bodyInit ++ [FIX_MESSAGE_DELIMITER]) →
    validate ((bodyInit ++ [FIX_MESSAGE_DELIMITER]) ++ strBytes "10=" ++ v ++
        [FIX_MESSAGE_DELIMITER]) = .ok false := by
  intro bodyInit v hni hv hd hne
  rw [validate_append bodyInit v hni hv hd, beq_eq_false_iff_ne.mpr hne]

/-- Witness for C7 (amended): body `"A\x01"` has checksum 66, and the wrong
three-digit value `"123"` yields `Ok(false)`. -/
theorem mismatch_ok_false_witness :
    validate ((strBytes "A" ++ [FIX_MESSAGE_DELIMITER]) ++ strBytes "10=" ++
        strBytes "123" ++ [FIX_MESSAGE_DELIMITER]) = .ok false :=
  mismatch_ok_false (strBytes "A") (strBytes "123")
    (by decide) (by decide) (by decide) (by decide)

end FixChecksum
